import Mathlib

/-!
Verification of the Craft Blocks API client (Go package `client`) and the
demo HTTP server (`main.go`) against their natural-language specification.

The Go code is shallowly embedded: JSON documents are an inductive `Json`
value type, `encoding/json` marshalling and unmarshalling of the concrete
request/response structs are executable Lean functions mirroring the Go
struct tags (`omitempty`, field order, zero values), errors built with
`fmt.Errorf` become the `GoError` inductive (a plain message string, or a
message wrapping a cause, as `%w` produces), and the HTTP transport is a
function from the built request to either a transport-level error or a
status/body response.  Each client method is a function from the receiver
`Client` and its arguments to a result paired with the (unchanged) receiver,
mirroring the Go pointer-receiver methods, which never assign to the
receiver's fields.
-/

set_option maxRecDepth 10000

/-- A JSON document.  Numbers are modelled as integers: every numeric field
of the Go structs involved is an integer type, and no claim involves
fractional values. -/
inductive Json where
  | null : Json
  | bool (b : Bool) : Json
  | num (n : Int) : Json
  | str (s : String) : Json
  | arr (elems : List Json) : Json
  | obj (fields : List (String × Json)) : Json

/-- Field lookup in a JSON object, last binding wins: Go's decoder processes
keys left to right, each occurrence overwriting the previous one. -/
def jlookup (key : String) (fields : List (String × Json)) : Option Json :=
  fields.foldl (fun acc kv => if kv.1 = key then some kv.2 else acc) none

/-- Escape one character of a JSON string, as Go's encoder does for the
characters that occur in this development (quote, backslash, newline; other
control characters and the HTML escapes are not exercised by any claim). -/
def jsonEscapeChar (c : Char) : List Char :=
  if c = '"' then ['\\', '"']
  else if c = '\\' then ['\\', '\\']
  else if c = '\n' then ['\\', 'n']
  else [c]

/-- Render a JSON string literal. -/
def renderJsonString (s : String) : String :=
  ⟨'"' :: (s.data.foldr (fun c acc => jsonEscapeChar c ++ acc) ['"'])⟩

mutual

/-- Render a JSON value to its wire text, as `encoding/json` marshals it. -/
def Json.render : Json → String
  | .null => "null"
  | .bool true => "true"
  | .bool false => "false"
  | .num n => toString n
  | .str s => renderJsonString s
  | .arr xs => "[" ++ Json.renderList xs ++ "]"
  | .obj fs => "\x7b" ++ Json.renderFields fs ++ "\x7d"

/-- Render the comma-separated elements of a JSON array. -/
def Json.renderList : List Json → String
  | [] => ""
  | [x] => Json.render x
  | x :: xs => Json.render x ++ "," ++ Json.renderList xs

/-- Render the comma-separated members of a JSON object. -/
def Json.renderFields : List (String × Json) → String
  | [] => ""
  | [kv] => renderJsonString kv.1 ++ ":" ++ Json.render kv.2
  | kv :: kvs => renderJsonString kv.1 ++ ":" ++ Json.render kv.2 ++ "," ++ Json.renderFields kvs

end

/-- A Go error value as produced by `fmt.Errorf`: either a plain error
string (no `%w` verb), or a formatted message wrapping a cause (`%w`). -/
inductive GoError where
  | errorString (msg : String) : GoError
  | wrapError (msg : String) (cause : GoError) : GoError
deriving DecidableEq

/-- The text `err.Error()` returns. -/
def GoError.message : GoError → String
  | .errorString s => s
  | .wrapError s _ => s

/-- True when the error value was built with a `%w` verb (Go dynamic type
`*fmt.wrapError`), false for a plain `*fmt.errorString`. -/
def GoError.isWrapped : GoError → Bool
  | .errorString _ => false
  | .wrapError _ _ => true

/-- An HTTP response body.  `raw` is opaque bytes (markdown, error text, or
anything that is not a JSON document); `json` is a well-formed JSON body,
carried structurally. -/
inductive Body where
  | raw (s : String) : Body
  | json (j : Json) : Body

/-- The bytes of the body read as a string, as `string(body)` yields. -/
def Body.asString : Body → String
  | .raw s => s
  | .json j => j.render

/-- An outgoing HTTP request, as built by `http.NewRequest` plus header
sets: method, full URL, headers, and the marshalled JSON body if any. -/
structure HTTPRequest where
  method : String
  url : String
  headers : List (String × String)
  body : Option Json

/-- An HTTP response delivered by the transport. -/
structure HTTPResponse where
  status : Nat
  body : Body

/-- The outcome of `http.Client.Do`: a response, or a network-level error. -/
inductive HTTPResult where
  | ok (resp : HTTPResponse) : HTTPResult
  | transportError (e : GoError) : HTTPResult

/-- The Craft API client: a base URL and an HTTP transport.  The transport
field models the `*http.Client`, abstracted as its observable behaviour. -/
structure Client where
  BaseURL : String
  HTTPClient : HTTPRequest → HTTPResult

/-- NewClient creates a new Craft API client.  The Go constructor installs a
fresh `&http.Client`; in the model the ambient network behaviour is passed
explicitly. -/
def NewClient (baseURL : String) (transport : HTTPRequest → HTTPResult) : Client :=
  { BaseURL := baseURL, HTTPClient := transport }

/-- An ASCII control character, which `net/url` rejects anywhere in a URL. -/
def isCtlChar (c : Char) : Bool :=
  c.toNat < 0x20 || c.toNat == 0x7f

/-- Models the failure of `url.Parse` inside `http.NewRequest`: only the
control-character rejection is modelled, which is the one construction
failure reachable from the inputs these operations accept (percent-encoding
removes control characters from query values, so only the base URL can
introduce one). -/
def urlParseError (s : String) : Option GoError :=
  if s.data.any isCtlChar then
    some (.errorString ("parse " ++ s ++ ": net/url: invalid control character in URL"))
  else
    none

/-- An uppercase hexadecimal digit. -/
def hexDigit : Nat → Char
  | 0 => '0' | 1 => '1' | 2 => '2' | 3 => '3' | 4 => '4'
  | 5 => '5' | 6 => '6' | 7 => '7' | 8 => '8' | 9 => '9'
  | 10 => 'A' | 11 => 'B' | 12 => 'C' | 13 => 'D' | 14 => 'E'
  | _ => 'F'

/-- The UTF-8 bytes of a code point. -/
def utf8Bytes (n : Nat) : List Nat :=
  if n < 0x80 then [n]
  else if n < 0x800 then [0xc0 + n / 64, 0x80 + n % 64]
  else if n < 0x10000 then [0xe0 + n / 4096, 0x80 + (n / 64) % 64, 0x80 + n % 64]
  else [0xf0 + n / 262144, 0x80 + (n / 4096) % 64, 0x80 + (n / 64) % 64, 0x80 + n % 64]

/-- True for the characters `url.QueryEscape` leaves unescaped. -/
def isUnreservedQueryChar (c : Char) : Bool :=
  (0x41 ≤ c.toNat && c.toNat ≤ 0x5a) || (0x61 ≤ c.toNat && c.toNat ≤ 0x7a) ||
  (0x30 ≤ c.toNat && c.toNat ≤ 0x39) ||
  c = '-' || c = '_' || c = '.' || c = '~'

/-- `url.QueryEscape` on one character: unreserved characters pass through,
space becomes `+`, everything else is percent-encoded bytewise. -/
def queryEscapeChar (c : Char) : List Char :=
  if isUnreservedQueryChar c then [c]
  else if c = ' ' then ['+']
  else (utf8Bytes c.toNat).foldr (fun b acc => '%' :: hexDigit (b / 16) :: hexDigit (b % 16) :: acc) []

/-- `url.QueryEscape`. -/
def queryEscape (s : String) : String :=
  ⟨s.data.foldr (fun c acc => queryEscapeChar c ++ acc) []⟩

/-- Byte-wise string order, as Go's `sort.Strings` compares keys (the keys
sorted here are ASCII, where code-point order and byte order agree). -/
def charListLe : List Char → List Char → Bool
  | [], _ => true
  | _ :: _, [] => false
  | a :: as, b :: bs =>
    if a.toNat < b.toNat then true
    else if b.toNat < a.toNat then false
    else charListLe as bs

/-- Byte-wise `≤` on strings. -/
def strLe (a b : String) : Bool :=
  charListLe a.data b.data

/-- Insert a key/value pair into a key-sorted list (byte-wise key order, as
Go sorts the keys of `url.Values` in `Encode`). -/
def insertByKey (kv : String × String) : List (String × String) → List (String × String)
  | [] => [kv]
  | p :: ps => if strLe kv.1 p.1 then kv :: p :: ps else p :: insertByKey kv ps

/-- Sort parameters by key, as `url.Values.Encode` does. -/
def sortByKey (ps : List (String × String)) : List (String × String) :=
  ps.foldr insertByKey []

/-- `url.Values.Encode`: keys sorted, each pair escaped and joined. -/
def encodeValues (ps : List (String × String)) : String :=
  String.intercalate "&" ((sortByKey ps).map (fun kv => queryEscape kv.1 ++ "=" ++ queryEscape kv.2))

/-- True when the parameter list carries the given key. -/
def hasParam (ps : List (String × String)) (key : String) : Bool :=
  ps.any (fun kv => kv.1 == key)

/-- A content block in Craft.  Field order and names follow the Go struct;
`width` is the Go `any` field, holding whatever JSON value the wire carried
(`none` for absent or JSON null, matching a nil interface). -/
inductive Block where
  | mk (id : String) (type : String) (textStyle : String) (markdown : String)
       (content : List Block) (indentationLevel : Int) (listStyle : String)
       (font : String) (color : String) (url : String) (altText : String)
       (width : Option Json) (height : Int) (fileName : String)
       (mimeType : String) (fileSize : Int) : Block

def Block.id : Block → String
  | .mk v _ _ _ _ _ _ _ _ _ _ _ _ _ _ _ => v

def Block.type : Block → String
  | .mk _ v _ _ _ _ _ _ _ _ _ _ _ _ _ _ => v

def Block.textStyle : Block → String
  | .mk _ _ v _ _ _ _ _ _ _ _ _ _ _ _ _ => v

def Block.markdown : Block → String
  | .mk _ _ _ v _ _ _ _ _ _ _ _ _ _ _ _ => v

def Block.content : Block → List Block
  | .mk _ _ _ _ v _ _ _ _ _ _ _ _ _ _ _ => v

def Block.indentationLevel : Block → Int
  | .mk _ _ _ _ _ v _ _ _ _ _ _ _ _ _ _ => v

def Block.listStyle : Block → String
  | .mk _ _ _ _ _ _ v _ _ _ _ _ _ _ _ _ => v

def Block.font : Block → String
  | .mk _ _ _ _ _ _ _ v _ _ _ _ _ _ _ _ => v

def Block.color : Block → String
  | .mk _ _ _ _ _ _ _ _ v _ _ _ _ _ _ _ => v

def Block.url : Block → String
  | .mk _ _ _ _ _ _ _ _ _ v _ _ _ _ _ _ => v

def Block.altText : Block → String
  | .mk _ _ _ _ _ _ _ _ _ _ v _ _ _ _ _ => v

def Block.width : Block → Option Json
  | .mk _ _ _ _ _ _ _ _ _ _ _ v _ _ _ _ => v

def Block.height : Block → Int
  | .mk _ _ _ _ _ _ _ _ _ _ _ _ v _ _ _ => v

def Block.fileName : Block → String
  | .mk _ _ _ _ _ _ _ _ _ _ _ _ _ v _ _ => v

def Block.mimeType : Block → String
  | .mk _ _ _ _ _ _ _ _ _ _ _ _ _ _ v _ => v

def Block.fileSize : Block → Int
  | .mk _ _ _ _ _ _ _ _ _ _ _ _ _ _ _ v => v

/-- The zero value of the Go `Block` struct. -/
def Block.zero : Block :=
  .mk "" "" "" "" [] 0 "" "" "" "" "" none 0 "" "" 0

/-- Position specifies where to insert blocks. -/
structure Position where
  position : String
  pageId : String
  siblingId : String

/-- InsertRequest represents a request to insert blocks. -/
structure InsertRequest where
  blocks : List Block
  markdown : String
  position : Position

/-- UpdateRequest represents a request to update blocks. -/
structure UpdateRequest where
  blocks : List Block

/-- MoveRequest represents a request to move blocks. -/
structure MoveRequest where
  blockIDs : List String
  position : Position

/-- PagePathElement represents a page in the hierarchy path. -/
structure PagePathElement where
  id : String
  content : String
deriving DecidableEq

/-- ContextBlock represents surrounding context in search results. -/
structure ContextBlock where
  blockId : String
  markdown : String
deriving DecidableEq

/-- SearchMatch represents a single search result. -/
structure SearchMatch where
  blockId : String
  markdown : String
  pageBlockPath : List PagePathElement
  beforeBlocks : List ContextBlock
  afterBlocks : List ContextBlock
deriving DecidableEq

/-- ItemsResponse is the generic response wrapper: the `items` field is kept
raw (`json.RawMessage`), decoded per operation in a second stage.  `none`
models a nil RawMessage (field absent); `some .null` a literal null. -/
structure ItemsResponse where
  items : Option Json

/-- The anonymous `struct \x7b ID string \x7d` element the delete and move
operations decode the items array into. -/
structure IdItem where
  id : String
deriving DecidableEq

/-- UploadLinkResponse represents the response from the upload-link endpoint. -/
structure UploadLinkResponse where
  uploadUrl : String
  rawUrl : String
deriving DecidableEq

/-- QueryRequest represents the demo server's incoming JSON payload. -/
structure QueryRequest where
  query : String
deriving DecidableEq

/-- QueryResponse represents the demo server's response JSON. -/
structure QueryResponse where
  status : String
  query : String

/-- Decode rule for a Go `string` struct field: absent or null leaves the
zero value, a JSON string sets it, anything else is an unmarshal type
error. -/
def getStrField (fields : List (String × Json)) (key : String) : Except String String :=
  match jlookup key fields with
  | none => .ok ""
  | some .null => .ok ""
  | some (.str s) => .ok s
  | some _ => .error ("cannot unmarshal value into Go struct field of type string: " ++ key)

/-- Decode rule for a Go `int` (or `int64`) struct field. -/
def getIntField (fields : List (String × Json)) (key : String) : Except String Int :=
  match jlookup key fields with
  | none => .ok 0
  | some .null => .ok 0
  | some (.num n) => .ok n
  | some _ => .error ("cannot unmarshal value into Go struct field of type int: " ++ key)

/-- Decode rule for the Go `any` field `Width`: every JSON value is
accepted verbatim; null and absence leave the nil interface. -/
def getAnyField (fields : List (String × Json)) (key : String) : Option Json :=
  match jlookup key fields with
  | none => none
  | some .null => none
  | some v => some v

/-- Unmarshal a JSON value into a `Block`, following Go's struct decoding:
a JSON object sets each tagged field, null leaves the zero value, anything
else is a type error; the `content` field must be null or an array of
blocks, decoded recursively.  The recursion through the looked-up field is
made structural by a fuel argument; the entry point passes the `sizeOf` the
document, which bounds its nesting depth, so the limit is unreachable. -/
def decodeBlockF : Nat → Json → Except String Block
  | 0, _ => .error "recursion limit"
  | _ + 1, .null => .ok Block.zero
  | n + 1, .obj fields => do
      let id ← getStrField fields "id"
      let type ← getStrField fields "type"
      let textStyle ← getStrField fields "textStyle"
      let markdown ← getStrField fields "markdown"
      let content ← match jlookup "content" fields with
        | none => .ok []
        | some .null => .ok []
        | some (.arr xs) => xs.mapM (decodeBlockF n)
        | some _ => .error "cannot unmarshal value into Go struct field of type slice: content"
      let indentationLevel ← getIntField fields "indentationLevel"
      let listStyle ← getStrField fields "listStyle"
      let font ← getStrField fields "font"
      let color ← getStrField fields "color"
      let url ← getStrField fields "url"
      let altText ← getStrField fields "altText"
      let width := getAnyField fields "width"
      let height ← getIntField fields "height"
      let fileName ← getStrField fields "fileName"
      let mimeType ← getStrField fields "mimeType"
      let fileSize ← getIntField fields "fileSize"
      .ok (.mk id type textStyle markdown content indentationLevel listStyle
            font color url altText width height fileName mimeType fileSize)
  | _ + 1, _ => .error "cannot unmarshal value into Go value of type client.Block"

mutual

/-- The size of a JSON document, a bound on its nesting depth and hence on
the decode recursion. -/
def Json.size : Json → Nat
  | .null | .bool _ | .num _ | .str _ => 1
  | .arr xs => 1 + Json.sizeList xs
  | .obj fs => 1 + Json.sizeFields fs

/-- Total size of a JSON array's elements. -/
def Json.sizeList : List Json → Nat
  | [] => 0
  | x :: xs => Json.size x + Json.sizeList xs

/-- Total size of a JSON object's members. -/
def Json.sizeFields : List (String × Json) → Nat
  | [] => 0
  | kv :: kvs => Json.size kv.2 + Json.sizeFields kvs

end

/-- `json.Unmarshal` into a `Block`. -/
def decodeBlock (j : Json) : Except String Block :=
  decodeBlockF (Json.size j) j

/-- `json.Unmarshal` into a `[]Block`: null leaves the nil slice, an array
decodes elementwise, anything else is a type error. -/
def decodeBlockList : Json → Except String (List Block)
  | .null => .ok []
  | .arr xs => xs.mapM decodeBlock
  | _ => .error "cannot unmarshal value into Go value of type []client.Block"

/-- `json.Decoder.Decode` reading a body: raw non-JSON bytes are a syntax
error; a JSON body is handed to the value-level decoder. -/
def decodeBodyWith (f : Json → Except String α) : Body → Except String α
  | .raw _ => .error "invalid character looking for beginning of value"
  | .json j => f j

/-- Unmarshal into the generic `ItemsResponse` envelope: a JSON object keeps
its `items` member raw; null leaves the zero struct; anything else is a type
error. -/
def decodeItemsResponse : Json → Except String ItemsResponse
  | .null => .ok { items := none }
  | .obj fields => .ok { items := jlookup "items" fields }
  | _ => .error "cannot unmarshal value into Go value of type client.ItemsResponse"

/-- Unmarshal one element of the delete/move items array into the anonymous
id struct. -/
def decodeIdItem : Json → Except String IdItem
  | .null => .ok { id := "" }
  | .obj fields => do
      let id ← getStrField fields "id"
      .ok { id := id }
  | _ => .error "cannot unmarshal value into Go value of type struct"

/-- Second-stage unmarshal of the raw `items` message into the anonymous id
structs.  A nil RawMessage (absent `items`) is an unmarshal of no bytes. -/
def decodeIdItems : Option Json → Except String (List IdItem)
  | none => .error "unexpected end of JSON input"
  | some .null => .ok []
  | some (.arr xs) => xs.mapM decodeIdItem
  | some _ => .error "cannot unmarshal value into Go value of type slice"

/-- Second-stage unmarshal of the raw `items` message into `[]Block`. -/
def decodeItemsBlocks : Option Json → Except String (List Block)
  | none => .error "unexpected end of JSON input"
  | some j => decodeBlockList j

/-- Unmarshal a page-path element of a search match. -/
def decodePagePathElement : Json → Except String PagePathElement
  | .null => .ok { id := "", content := "" }
  | .obj fields => do
      let id ← getStrField fields "id"
      let content ← getStrField fields "content"
      .ok { id := id, content := content }
  | _ => .error "cannot unmarshal value into Go value of type client.PagePathElement"

/-- Unmarshal a context block of a search match. -/
def decodeContextBlock : Json → Except String ContextBlock
  | .null => .ok { blockId := "", markdown := "" }
  | .obj fields => do
      let blockId ← getStrField fields "blockId"
      let markdown ← getStrField fields "markdown"
      .ok { blockId := blockId, markdown := markdown }
  | _ => .error "cannot unmarshal value into Go value of type client.ContextBlock"

/-- Unmarshal a list-valued struct field with element decoder `f`: absent or
null leaves the nil slice, an array decodes elementwise. -/
def getListField (f : Json → Except String α) (fields : List (String × Json)) (key : String) :
    Except String (List α) :=
  match jlookup key fields with
  | none => .ok []
  | some .null => .ok []
  | some (.arr xs) => xs.mapM f
  | some _ => .error ("cannot unmarshal value into Go struct field of type slice: " ++ key)

/-- Unmarshal one search match. -/
def decodeSearchMatch : Json → Except String SearchMatch
  | .null => .ok { blockId := "", markdown := "", pageBlockPath := [], beforeBlocks := [], afterBlocks := [] }
  | .obj fields => do
      let blockId ← getStrField fields "blockId"
      let markdown ← getStrField fields "markdown"
      let pageBlockPath ← getListField decodePagePathElement fields "pageBlockPath"
      let beforeBlocks ← getListField decodeContextBlock fields "beforeBlocks"
      let afterBlocks ← getListField decodeContextBlock fields "afterBlocks"
      .ok { blockId := blockId, markdown := markdown, pageBlockPath := pageBlockPath,
            beforeBlocks := beforeBlocks, afterBlocks := afterBlocks }
  | _ => .error "cannot unmarshal value into Go value of type client.SearchMatch"

/-- Second-stage unmarshal of the raw `items` message into `[]SearchMatch`. -/
def decodeItemsSearchMatches : Option Json → Except String (List SearchMatch)
  | none => .error "unexpected end of JSON input"
  | some .null => .ok []
  | some (.arr xs) => xs.mapM decodeSearchMatch
  | some _ => .error "cannot unmarshal value into Go value of type slice"

/-- Unmarshal an `UploadLinkResponse`. -/
def decodeUploadLinkResponse : Json → Except String UploadLinkResponse
  | .null => .ok { uploadUrl := "", rawUrl := "" }
  | .obj fields => do
      let uploadUrl ← getStrField fields "uploadUrl"
      let rawUrl ← getStrField fields "rawUrl"
      .ok { uploadUrl := uploadUrl, rawUrl := rawUrl }
  | _ => .error "cannot unmarshal value into Go value of type client.UploadLinkResponse"

/-- Unmarshal the demo server's `QueryRequest`. -/
def decodeQueryRequest : Json → Except String QueryRequest
  | .null => .ok { query := "" }
  | .obj fields => do
      let query ← getStrField fields "query"
      .ok { query := query }
  | _ => .error "cannot unmarshal value into Go value of type main.QueryRequest"

mutual

/-- `json.Marshal` of a `Block`, following the struct tags: `type` is always
emitted, every other field carries `omitempty` and is emitted only when it
is not the zero value; fields appear in struct order. -/
def marshalBlock : Block → Json
  | .mk id type textStyle markdown content indentationLevel listStyle font
       color url altText width height fileName mimeType fileSize =>
    .obj ((if id ≠ "" then [("id", Json.str id)] else []) ++
      [("type", Json.str type)] ++
      (if textStyle ≠ "" then [("textStyle", Json.str textStyle)] else []) ++
      (if markdown ≠ "" then [("markdown", Json.str markdown)] else []) ++
      (if content.isEmpty then [] else [("content", Json.arr (marshalBlockList content))]) ++
      (if indentationLevel ≠ 0 then [("indentationLevel", Json.num indentationLevel)] else []) ++
      (if listStyle ≠ "" then [("listStyle", Json.str listStyle)] else []) ++
      (if font ≠ "" then [("font", Json.str font)] else []) ++
      (if color ≠ "" then [("color", Json.str color)] else []) ++
      (if url ≠ "" then [("url", Json.str url)] else []) ++
      (if altText ≠ "" then [("altText", Json.str altText)] else []) ++
      (match width with | none => [] | some w => [("width", w)]) ++
      (if height ≠ 0 then [("height", Json.num height)] else []) ++
      (if fileName ≠ "" then [("fileName", Json.str fileName)] else []) ++
      (if mimeType ≠ "" then [("mimeType", Json.str mimeType)] else []) ++
      (if fileSize ≠ 0 then [("fileSize", Json.num fileSize)] else []))

/-- Marshal a list of blocks elementwise. -/
def marshalBlockList : List Block → List Json
  | [] => []
  | b :: bs => marshalBlock b :: marshalBlockList bs

end

/-- `json.Marshal` of a `Position`: `position` always, `pageId` and
`siblingId` with `omitempty`. -/
def marshalPosition (p : Position) : Json :=
  .obj ([("position", Json.str p.position)] ++
    (if p.pageId ≠ "" then [("pageId", Json.str p.pageId)] else []) ++
    (if p.siblingId ≠ "" then [("siblingId", Json.str p.siblingId)] else []))

/-- `json.Marshal` of an `InsertRequest`: `blocks` and `markdown` carry
`omitempty`, `position` is always emitted. -/
def marshalInsertRequest (r : InsertRequest) : Json :=
  .obj ((if r.blocks.isEmpty then [] else [("blocks", Json.arr (marshalBlockList r.blocks))]) ++
    (if r.markdown ≠ "" then [("markdown", Json.str r.markdown)] else []) ++
    [("position", marshalPosition r.position)])

/-- `json.Marshal` of an `UpdateRequest` (no `omitempty` on `blocks`). -/
def marshalUpdateRequest (r : UpdateRequest) : Json :=
  .obj [("blocks", Json.arr (marshalBlockList r.blocks))]

/-- `json.Marshal` of a `DeleteRequest`. -/
def marshalDeleteRequest (blockIDs : List String) : Json :=
  .obj [("blockIds", Json.arr (blockIDs.map Json.str))]

/-- `json.Marshal` of a `MoveRequest`. -/
def marshalMoveRequest (r : MoveRequest) : Json :=
  .obj [("blockIds", Json.arr (r.blockIDs.map Json.str)),
        ("position", marshalPosition r.position)]

/-- `json.Marshal` of an `UploadLinkRequest`: `fileName` always, `mimeType`
with `omitempty`. -/
def marshalUploadLinkRequest (fileName mimeType : String) : Json :=
  .obj ([("fileName", Json.str fileName)] ++
    (if mimeType ≠ "" then [("mimeType", Json.str mimeType)] else []))

/-- The query parameters FetchBlocks adds, in source order: `id` unless
empty, `maxDepth` unless the sentinel -1, `fetchMetadata` when true. -/
def fetchBlocksParams (id : String) (maxDepth : Int) (fetchMetadata : Bool) :
    List (String × String) :=
  (if id ≠ "" then [("id", id)] else []) ++
  (if maxDepth ≠ -1 then [("maxDepth", toString maxDepth)] else []) ++
  (if fetchMetadata then [("fetchMetadata", "true")] else [])

/-- The query parameters FetchBlocksMarkdown adds: `id` unless empty,
`maxDepth` unless the sentinel -1. -/
def fetchBlocksMarkdownParams (id : String) (maxDepth : Int) : List (String × String) :=
  (if id ≠ "" then [("id", id)] else []) ++
  (if maxDepth ≠ -1 then [("maxDepth", toString maxDepth)] else [])

/-- The query parameters Search adds: `pattern` unconditionally,
`caseSensitive` when true, the two context counts when positive. -/
def searchParams (pattern : String) (caseSensitive : Bool) (beforeCount afterCount : Int) :
    List (String × String) :=
  [("pattern", pattern)] ++
  (if caseSensitive then [("caseSensitive", "true")] else []) ++
  (if beforeCount > 0 then [("beforeBlockCount", toString beforeCount)] else []) ++
  (if afterCount > 0 then [("afterBlockCount", toString afterCount)] else [])

/-- Append the encoded parameters to a URL when there are any, as the
`len(params) > 0` guard does. -/
def withQuery (reqURL : String) (params : List (String × String)) : String :=
  if params.length > 0 then reqURL ++ "?" ++ encodeValues params else reqURL

/-- The GET /blocks request FetchBlocks builds. -/
def fetchBlocksRequest (c : Client) (id : String) (maxDepth : Int) (fetchMetadata : Bool) :
    HTTPRequest :=
  { method := "GET",
    url := withQuery (c.BaseURL ++ "/blocks") (fetchBlocksParams id maxDepth fetchMetadata),
    headers := [("Accept", "application/json")],
    body := none }

/-- The GET /blocks request FetchBlocksMarkdown builds. -/
def fetchBlocksMarkdownRequest (c : Client) (id : String) (maxDepth : Int) : HTTPRequest :=
  { method := "GET",
    url := withQuery (c.BaseURL ++ "/blocks") (fetchBlocksMarkdownParams id maxDepth),
    headers := [("Accept", "text/markdown")],
    body := none }

/-- The POST /blocks request InsertBlocks builds. -/
def insertBlocksRequest (c : Client) (req : InsertRequest) : HTTPRequest :=
  { method := "POST",
    url := c.BaseURL ++ "/blocks",
    headers := [("Content-Type", "application/json")],
    body := some (marshalInsertRequest req) }

/-- The PUT /blocks request UpdateBlocks builds. -/
def updateBlocksRequest (c : Client) (req : UpdateRequest) : HTTPRequest :=
  { method := "PUT",
    url := c.BaseURL ++ "/blocks",
    headers := [("Content-Type", "application/json")],
    body := some (marshalUpdateRequest req) }

/-- The DELETE /blocks request DeleteBlocks builds. -/
def deleteBlocksRequest (c : Client) (blockIDs : List String) : HTTPRequest :=
  { method := "DELETE",
    url := c.BaseURL ++ "/blocks",
    headers := [("Content-Type", "application/json")],
    body := some (marshalDeleteRequest blockIDs) }

/-- The PUT /blocks/move request MoveBlocks builds. -/
def moveBlocksRequest (c : Client) (req : MoveRequest) : HTTPRequest :=
  { method := "PUT",
    url := c.BaseURL ++ "/blocks/move",
    headers := [("Content-Type", "application/json")],
    body := some (marshalMoveRequest req) }

/-- The GET /blocks/search request Search builds (the query is appended
unconditionally, and no header is set). -/
def searchRequest (c : Client) (pattern : String) (caseSensitive : Bool)
    (beforeCount afterCount : Int) : HTTPRequest :=
  { method := "GET",
    url := c.BaseURL ++ "/blocks/search" ++ "?" ++
      encodeValues (searchParams pattern caseSensitive beforeCount afterCount),
    headers := [],
    body := none }

/-- The POST /upload-link request GenerateUploadURL builds. -/
def generateUploadURLRequest (c : Client) (fileName mimeType : String) : HTTPRequest :=
  { method := "POST",
    url := c.BaseURL ++ "/upload-link",
    headers := [("Content-Type", "application/json")],
    body := some (marshalUploadLinkRequest fileName mimeType) }

/-- The error `fmt.Errorf("creating request: %w", err)` builds. -/
def creatingRequestError (e : GoError) : GoError :=
  .wrapError ("creating request: " ++ e.message) e

/-- The error `fmt.Errorf("executing request: %w", err)` builds. -/
def executingRequestError (e : GoError) : GoError :=
  .wrapError ("executing request: " ++ e.message) e

/-- The error `fmt.Errorf("unexpected status %d: %s", ...)` builds: a plain
error string carrying the numeric status and the raw response body. -/
def unexpectedStatusError (status : Nat) (body : Body) : GoError :=
  .errorString ("unexpected status " ++ toString status ++ ": " ++ body.asString)

/-- The error `fmt.Errorf("decoding response: %w", err)` builds. -/
def decodingResponseError (msg : String) : GoError :=
  .wrapError ("decoding response: " ++ msg) (.errorString msg)

/-- The error `fmt.Errorf("unmarshaling <what>: %w", err)` builds. -/
def unmarshalingError (what msg : String) : GoError :=
  .wrapError ("unmarshaling " ++ what ++ ": " ++ msg) (.errorString msg)

/-- FetchBlocks retrieves blocks from the document.  Mirrors the Go method:
build the request, send it, reject any status other than 200, then decode
the whole body directly into one `Block`.  The returned `Client` is the
receiver, unchanged: the method assigns to no receiver field. -/
def FetchBlocks (c : Client) (id : String) (maxDepth : Int) (fetchMetadata : Bool) :
    Except GoError Block × Client :=
  let req := fetchBlocksRequest c id maxDepth fetchMetadata
  match urlParseError req.url with
  | some e => (.error (creatingRequestError e), c)
  | none =>
    match c.HTTPClient req with
    | .transportError e => (.error (executingRequestError e), c)
    | .ok resp =>
      if resp.status ≠ 200 then
        (.error (unexpectedStatusError resp.status resp.body), c)
      else
        match decodeBodyWith decodeBlock resp.body with
        | .error m => (.error (decodingResponseError m), c)
        | .ok block => (.ok block, c)

/-- FetchBlocksMarkdown retrieves blocks as markdown: same request with the
`text/markdown` Accept header and no `fetchMetadata` parameter; on status
200 the raw body bytes are returned verbatim as the result string. -/
def FetchBlocksMarkdown (c : Client) (id : String) (maxDepth : Int) :
    Except GoError String × Client :=
  let req := fetchBlocksMarkdownRequest c id maxDepth
  match urlParseError req.url with
  | some e => (.error (creatingRequestError e), c)
  | none =>
    match c.HTTPClient req with
    | .transportError e => (.error (executingRequestError e), c)
    | .ok resp =>
      if resp.status ≠ 200 then
        (.error (unexpectedStatusError resp.status resp.body), c)
      else
        (.ok resp.body.asString, c)

/-- InsertBlocks adds new blocks to the document: POST the marshalled
request, accept only status 200, decode the generic items envelope, then
unmarshal the raw items into `[]Block`. -/
def InsertBlocks (c : Client) (req : InsertRequest) : Except GoError (List Block) × Client :=
  let httpReq := insertBlocksRequest c req
  match urlParseError httpReq.url with
  | some e => (.error (creatingRequestError e), c)
  | none =>
    match c.HTTPClient httpReq with
    | .transportError e => (.error (executingRequestError e), c)
    | .ok resp =>
      if resp.status ≠ 200 then
        (.error (unexpectedStatusError resp.status resp.body), c)
      else
        match decodeBodyWith decodeItemsResponse resp.body with
        | .error m => (.error (decodingResponseError m), c)
        | .ok itemsResp =>
          match decodeItemsBlocks itemsResp.items with
          | .error m => (.error (unmarshalingError "blocks" m), c)
          | .ok blocks => (.ok blocks, c)

/-- UpdateBlocks modifies existing blocks: PUT, status 200 only, envelope
then `[]Block`. -/
def UpdateBlocks (c : Client) (req : UpdateRequest) : Except GoError (List Block) × Client :=
  let httpReq := updateBlocksRequest c req
  match urlParseError httpReq.url with
  | some e => (.error (creatingRequestError e), c)
  | none =>
    match c.HTTPClient httpReq with
    | .transportError e => (.error (executingRequestError e), c)
    | .ok resp =>
      if resp.status ≠ 200 then
        (.error (unexpectedStatusError resp.status resp.body), c)
      else
        match decodeBodyWith decodeItemsResponse resp.body with
        | .error m => (.error (decodingResponseError m), c)
        | .ok itemsResp =>
          match decodeItemsBlocks itemsResp.items with
          | .error m => (.error (unmarshalingError "blocks" m), c)
          | .ok blocks => (.ok blocks, c)

/-- DeleteBlocks removes blocks from the document: DELETE with the id list
as body; status 200 and 207 are both accepted; the envelope's items decode
into anonymous id structs which are projected, in order, to their id
strings. -/
def DeleteBlocks (c : Client) (blockIDs : List String) : Except GoError (List String) × Client :=
  let httpReq := deleteBlocksRequest c blockIDs
  match urlParseError httpReq.url with
  | some e => (.error (creatingRequestError e), c)
  | none =>
    match c.HTTPClient httpReq with
    | .transportError e => (.error (executingRequestError e), c)
    | .ok resp =>
      if resp.status ≠ 200 ∧ resp.status ≠ 207 then
        (.error (unexpectedStatusError resp.status resp.body), c)
      else
        match decodeBodyWith decodeItemsResponse resp.body with
        | .error m => (.error (decodingResponseError m), c)
        | .ok itemsResp =>
          match decodeIdItems itemsResp.items with
          | .error m => (.error (unmarshalingError "deleted IDs" m), c)
          | .ok deletedItems => (.ok (deletedItems.map IdItem.id), c)

/-- MoveBlocks repositions blocks in the document: PUT /blocks/move; status
200 and 207 are both accepted; items decode and project as in delete. -/
def MoveBlocks (c : Client) (req : MoveRequest) : Except GoError (List String) × Client :=
  let httpReq := moveBlocksRequest c req
  match urlParseError httpReq.url with
  | some e => (.error (creatingRequestError e), c)
  | none =>
    match c.HTTPClient httpReq with
    | .transportError e => (.error (executingRequestError e), c)
    | .ok resp =>
      if resp.status ≠ 200 ∧ resp.status ≠ 207 then
        (.error (unexpectedStatusError resp.status resp.body), c)
      else
        match decodeBodyWith decodeItemsResponse resp.body with
        | .error m => (.error (decodingResponseError m), c)
        | .ok itemsResp =>
          match decodeIdItems itemsResp.items with
          | .error m => (.error (unmarshalingError "moved IDs" m), c)
          | .ok movedItems => (.ok (movedItems.map IdItem.id), c)

/-- Search finds blocks matching a pattern: GET /blocks/search with the
query always appended; status 200 only; envelope then `[]SearchMatch`. -/
def Search (c : Client) (pattern : String) (caseSensitive : Bool)
    (beforeCount afterCount : Int) : Except GoError (List SearchMatch) × Client :=
  let req := searchRequest c pattern caseSensitive beforeCount afterCount
  match urlParseError req.url with
  | some e => (.error (creatingRequestError e), c)
  | none =>
    match c.HTTPClient req with
    | .transportError e => (.error (executingRequestError e), c)
    | .ok resp =>
      if resp.status ≠ 200 then
        (.error (unexpectedStatusError resp.status resp.body), c)
      else
        match decodeBodyWith decodeItemsResponse resp.body with
        | .error m => (.error (decodingResponseError m), c)
        | .ok itemsResp =>
          match decodeItemsSearchMatches itemsResp.items with
          | .error m => (.error (unmarshalingError "search results" m), c)
          | .ok results => (.ok results, c)

/-- GenerateUploadURL creates a pre-signed S3 URL for file upload: POST
/upload-link; status 200 only; the whole body decodes directly into an
`UploadLinkResponse`. -/
def GenerateUploadURL (c : Client) (fileName mimeType : String) :
    Except GoError UploadLinkResponse × Client :=
  let req := generateUploadURLRequest c fileName mimeType
  match urlParseError req.url with
  | some e => (.error (creatingRequestError e), c)
  | none =>
    match c.HTTPClient req with
    | .transportError e => (.error (executingRequestError e), c)
    | .ok resp =>
      if resp.status ≠ 200 then
        (.error (unexpectedStatusError resp.status resp.body), c)
      else
        match decodeBodyWith decodeUploadLinkResponse resp.body with
        | .error m => (.error (decodingResponseError m), c)
        | .ok uploadResp => (.ok uploadResp, c)

/-- The API endpoint base URL the demo server uses. -/
def BaseURL : String := "https://connect.craft.do/links/3tXZdMX0EIe/api/v1"

/-- The observable outcome of one call to the demo server handler: an HTTP
response written to the client (status, Content-Type, body text), or a Go
runtime crash (the panics reachable in the handler are not recovered). -/
inductive HandlerResult where
  | response (status : Nat) (contentType : String) (body : String) : HandlerResult
  | crashed (msg : String) : HandlerResult
deriving DecidableEq

/-- The response `http.Error(w, msg, status)` writes: text/plain, message
followed by a newline. -/
def httpError (msg : String) (status : Nat) : HandlerResult :=
  .response status "text/plain; charset=utf-8" (msg ++ "\n")

/-- The InsertRequest the demo handler builds from a query and the fetched
root block: the query text as markdown, positioned at the end of the root's
page id. -/
def demoInsertRequest (query : String) (root : Block) : InsertRequest :=
  { blocks := [],
    markdown := query,
    position := { position := "end", pageId := root.id, siblingId := "" } }

/-- handleCraftHackathon handles POST requests to /craft-hackathon.  The
ambient network behaviour is the `transport` argument; `method` and `body`
are the incoming request.  Mirrors `main.go`: reject non-POST with 405,
reject unparseable JSON with 400, fetch the root block (id "", depth 0, no
metadata), insert the query as markdown at the end of the root's id, read
the first inserted block's id without an emptiness check (a Go index-out-of-
range runtime panic when the list is empty), and reply 200 with the JSON
`QueryResponse` (the encoder appends a newline). -/
def handleCraftHackathon (transport : HTTPRequest → HTTPResult) (method : String)
    (body : Body) : HandlerResult :=
  if method ≠ "POST" then
    httpError "Method not allowed" 405
  else
    match decodeBodyWith decodeQueryRequest body with
    | .error m => httpError ("Invalid JSON: " ++ m) 400
    | .ok req =>
      let c := NewClient BaseURL transport
      match (FetchBlocks c "" 0 false).1 with
      | .error e => httpError ("Failed to fetch document: " ++ e.message) 500
      | .ok root =>
        match (InsertBlocks c (demoInsertRequest req.query root)).1 with
        | .error e => httpError ("Failed to add content: " ++ e.message) 500
        | .ok insertedBlocks =>
          match insertedBlocks with
          | [] => .crashed "runtime error: index out of range [0] with length 0"
          | _ :: _ =>
            .response 200 "application/json"
              (Json.render (.obj [("status", Json.str "created"),
                                  ("query", Json.str req.query)]) ++ "\n")

/-- The four failure modes of §7's error taxonomy. -/
inductive FailureMode where
  | construction : FailureMode
  | transport : FailureMode
  | status : FailureMode
  | decode : FailureMode
deriving DecidableEq

/-- True when `pre` is an initial segment of `s`. -/
def strStartsWith (pre s : String) : Bool :=
  pre.data.isPrefixOf s.data

/-- Classify an error value of the client by the fixed message prefix the
source attaches at each failure site.  This is the only discrimination the
code offers: all the errors are built by `fmt.Errorf`. -/
def classifyError (e : GoError) : Option FailureMode :=
  let m := e.message
  if strStartsWith "marshaling request: " m then some .construction
  else if strStartsWith "creating request: " m then some .construction
  else if strStartsWith "executing request: " m then some .transport
  else if strStartsWith "unexpected status " m then some .status
  else if strStartsWith "decoding response: " m then some .decode
  else if strStartsWith "unmarshaling " m then some .decode
  else if strStartsWith "reading response: " m then some .transport
  else none

/-- The failure mode of an operation's outcome, `none` on success or on an
unclassifiable message. -/
def resultMode : Except GoError α → Option FailureMode
  | .ok _ => none
  | .error e => classifyError e

/-- A client whose transport always answers with the given status and body,
used to probe one operation against one response. -/
def constClient (status : Nat) (body : Body) : Client :=
  { BaseURL := "https://x", HTTPClient := fun _ => .ok ⟨status, body⟩ }

/-- A client whose transport always fails at the network level. -/
def transportFailClient (e : GoError) : Client :=
  { BaseURL := "https://x", HTTPClient := fun _ => .transportError e }

/-- A client whose base URL contains an ASCII control character, the
reachable way to make request construction fail. -/
def ctlClient : Client :=
  { BaseURL := "https://x\n", HTTPClient := fun _ => .ok ⟨200, .raw ""⟩ }

/-- A response body wrapping the given raw items value in the envelope. -/
def envBody (v : Json) : Body :=
  .json (.obj [("items", v)])

/-- The envelope body holding one id object per given identifier, in the
given order. -/
def idsBody (ids : List String) : Body :=
  envBody (.arr (ids.map (fun s => .obj [("id", .str s)])))

/-- The root block JSON the demo-transport fixtures serve on GET. -/
def demoRootBody : Body :=
  .json (.obj [("id", Json.str "0"), ("type", Json.str "page")])

/-- A demo transport answering the handler's fetch with a root page and its
insert with one created block. -/
def demoOkTransport : HTTPRequest → HTTPResult := fun req =>
  if req.method = "GET" then .ok ⟨200, demoRootBody⟩
  else .ok ⟨200, envBody (.arr [.obj [("id", Json.str "9"), ("type", Json.str "text"),
                                      ("markdown", Json.str "hi")]])⟩

/-- A demo transport whose insert answer is status 200 with an empty items
array. -/
def demoEmptyInsertTransport : HTTPRequest → HTTPResult := fun req =>
  if req.method = "GET" then .ok ⟨200, demoRootBody⟩
  else .ok ⟨200, envBody (.arr [])⟩

/-- Claim C1: DeleteBlocks and MoveBlocks accept both status 200 and 207 as
success, while every other status makes them return the error carrying the
numeric status and the raw body; every other operation (fetch,
fetch-as-markdown, insert, update, search, generate-upload-url) accepts only
status 200 and returns that same error shape for every other status. -/
theorem C1_status_acceptance (s : Nat) (b : Body) :
    ((s ≠ 200 → s ≠ 207 →
        (DeleteBlocks (constClient s b) ["a"]).1 = .error (unexpectedStatusError s b) ∧
        (MoveBlocks (constClient s b) ⟨["a"], ⟨"end", "0", ""⟩⟩).1 = .error (unexpectedStatusError s b)) ∧
     ((s = 200 ∨ s = 207) →
        (DeleteBlocks (constClient s (idsBody ["a", "b"])) ["a", "b"]).1 = .ok ["a", "b"] ∧
        (MoveBlocks (constClient s (idsBody ["a", "b"])) ⟨["a", "b"], ⟨"end", "0", ""⟩⟩).1 = .ok ["a", "b"]) ∧
     (s ≠ 200 →
        (FetchBlocks (constClient s b) "x" 0 false).1 = .error (unexpectedStatusError s b) ∧
        (FetchBlocksMarkdown (constClient s b) "x" 0).1 = .error (unexpectedStatusError s b) ∧
        (InsertBlocks (constClient s b) ⟨[], "m", ⟨"end", "0", ""⟩⟩).1 = .error (unexpectedStatusError s b) ∧
        (UpdateBlocks (constClient s b) ⟨[]⟩).1 = .error (unexpectedStatusError s b) ∧
        (Search (constClient s b) "p" false 0 0).1 = .error (unexpectedStatusError s b) ∧
        (GenerateUploadURL (constClient s b) "f.txt" "").1 = .error (unexpectedStatusError s b))) := by
  refine ⟨fun h1 h2 => ⟨?_, ?_⟩, fun h => ?_, fun h1 => ⟨?_, ?_, ?_, ?_, ?_, ?_⟩⟩
  · have hu : urlParseError (deleteBlocksRequest (constClient s b) ["a"]).url = none := rfl
    simp only [DeleteBlocks, hu]
    simp [constClient, h1, h2]
  · have hu : urlParseError (moveBlocksRequest (constClient s b) ⟨["a"], ⟨"end", "0", ""⟩⟩).url = none := rfl
    simp only [MoveBlocks, hu]
    simp [constClient, h1, h2]
  · rcases h with h | h <;> subst h <;> exact ⟨rfl, rfl⟩
  · have hu : urlParseError (fetchBlocksRequest (constClient s b) "x" 0 false).url = none := rfl
    simp only [FetchBlocks, hu]
    simp [constClient, h1]
  · have hu : urlParseError (fetchBlocksMarkdownRequest (constClient s b) "x" 0).url = none := rfl
    simp only [FetchBlocksMarkdown, hu]
    simp [constClient, h1]
  · have hu : urlParseError (insertBlocksRequest (constClient s b) ⟨[], "m", ⟨"end", "0", ""⟩⟩).url = none := rfl
    simp only [InsertBlocks, hu]
    simp [constClient, h1]
  · have hu : urlParseError (updateBlocksRequest (constClient s b) ⟨[]⟩).url = none := rfl
    simp only [UpdateBlocks, hu]
    simp [constClient, h1]
  · have hu : urlParseError (searchRequest (constClient s b) "p" false 0 0).url = none := rfl
    simp only [Search, hu]
    simp [constClient, h1]
  · have hu : urlParseError (generateUploadURLRequest (constClient s b) "f.txt" "").url = none := rfl
    simp only [GenerateUploadURL, hu]
    simp [constClient, h1]

/-- Witness for C1 at concrete inputs: status 404 is rejected by
DeleteBlocks, status 207 is rejected by FetchBlocks, and status 207 is
accepted by DeleteBlocks. -/
theorem C1_status_acceptance_witness :
    (DeleteBlocks (constClient 404 (.raw "nope")) ["a"]).1 =
      .error (unexpectedStatusError 404 (.raw "nope")) ∧
    (FetchBlocks (constClient 207 (.raw "nope")) "x" 0 false).1 =
      .error (unexpectedStatusError 207 (.raw "nope")) ∧
    (DeleteBlocks (constClient 207 (idsBody ["a", "b"])) ["a", "b"]).1 = .ok ["a", "b"] := by
  refine ⟨?_, ?_, ?_⟩
  · exact ((C1_status_acceptance 404 (.raw "nope")).1 (by decide) (by decide)).1
  · exact (((C1_status_acceptance 207 (.raw "nope")).2.2) (by decide)).1
  · exact (((C1_status_acceptance 207 (idsBody ["a", "b"])).2.1) (Or.inr rfl)).1

/-- Decoding an items array of id objects yields the id structs in array
order. -/
theorem decodeIdItems_of_ids (ids : List String) :
    decodeIdItems (some (.arr (ids.map (fun s => .obj [("id", Json.str s)])))) =
      .ok (ids.map IdItem.mk) := by
  simp only [decodeIdItems]
  induction ids with
  | nil => rfl
  | cons x xs ih =>
    simp only [List.map_cons, List.mapM_cons, ih,
      show decodeIdItem (.obj [("id", Json.str x)]) = .ok ⟨x⟩ from rfl]
    rfl

/-- Claim C2: every list-returning operation decodes in two stages — the
generic items envelope first, then the raw items value into the
operation-specific element type (`[]Block`, `[]Block`, id structs, id
structs, `[]SearchMatch`) — and DeleteBlocks/MoveBlocks project the decoded
id objects to the flat identifier list in exactly the server's order. -/
theorem C2_two_stage_decode (v : Json) (ids : List String) :
    ((DeleteBlocks (constClient 200 (envBody v)) ["q"]).1 =
       (match decodeIdItems (some v) with
        | .error m => .error (unmarshalingError "deleted IDs" m)
        | .ok deletedItems => .ok (deletedItems.map IdItem.id))) ∧
    ((MoveBlocks (constClient 200 (envBody v)) ⟨["q"], ⟨"end", "0", ""⟩⟩).1 =
       (match decodeIdItems (some v) with
        | .error m => .error (unmarshalingError "moved IDs" m)
        | .ok movedItems => .ok (movedItems.map IdItem.id))) ∧
    ((InsertBlocks (constClient 200 (envBody v)) ⟨[], "m", ⟨"end", "0", ""⟩⟩).1 =
       (match decodeItemsBlocks (some v) with
        | .error m => .error (unmarshalingError "blocks" m)
        | .ok blocks => .ok blocks)) ∧
    ((UpdateBlocks (constClient 200 (envBody v)) ⟨[]⟩).1 =
       (match decodeItemsBlocks (some v) with
        | .error m => .error (unmarshalingError "blocks" m)
        | .ok blocks => .ok blocks)) ∧
    ((Search (constClient 200 (envBody v)) "p" false 0 0).1 =
       (match decodeItemsSearchMatches (some v) with
        | .error m => .error (unmarshalingError "search results" m)
        | .ok results => .ok results)) ∧
    (decodeIdItems (some (.arr (ids.map (fun s => .obj [("id", Json.str s)])))) =
      .ok (ids.map IdItem.mk)) ∧
    ((DeleteBlocks (constClient 200 (idsBody ids)) ["q"]).1 = .ok ids) ∧
    ((MoveBlocks (constClient 207 (idsBody ids)) ⟨["q"], ⟨"end", "0", ""⟩⟩).1 = .ok ids) := by
  refine ⟨?_, ?_, ?_, ?_, ?_, decodeIdItems_of_ids ids, ?_, ?_⟩
  · have hu : urlParseError (deleteBlocksRequest (constClient 200 (envBody v)) ["q"]).url = none := rfl
    simp only [DeleteBlocks, hu]
    rcases h : decodeIdItems (some v) with m | its <;>
      simp [constClient, envBody, decodeBodyWith, decodeItemsResponse, jlookup, h]
  · have hu : urlParseError (moveBlocksRequest (constClient 200 (envBody v)) ⟨["q"], ⟨"end", "0", ""⟩⟩).url = none := rfl
    simp only [MoveBlocks, hu]
    rcases h : decodeIdItems (some v) with m | its <;>
      simp [constClient, envBody, decodeBodyWith, decodeItemsResponse, jlookup, h]
  · have hu : urlParseError (insertBlocksRequest (constClient 200 (envBody v)) ⟨[], "m", ⟨"end", "0", ""⟩⟩).url = none := rfl
    simp only [InsertBlocks, hu]
    rcases h : decodeItemsBlocks (some v) with m | bs <;>
      simp [constClient, envBody, decodeBodyWith, decodeItemsResponse, jlookup, h]
  · have hu : urlParseError (updateBlocksRequest (constClient 200 (envBody v)) ⟨[]⟩).url = none := rfl
    simp only [UpdateBlocks, hu]
    rcases h : decodeItemsBlocks (some v) with m | bs <;>
      simp [constClient, envBody, decodeBodyWith, decodeItemsResponse, jlookup, h]
  · have hu : urlParseError (searchRequest (constClient 200 (envBody v)) "p" false 0 0).url = none := rfl
    simp only [Search, hu]
    rcases h : decodeItemsSearchMatches (some v) with m | rs <;>
      simp [constClient, envBody, decodeBodyWith, decodeItemsResponse, jlookup, h]
  · have hu : urlParseError (deleteBlocksRequest (constClient 200 (idsBody ids)) ["q"]).url = none := rfl
    simp only [DeleteBlocks, hu]
    simp [constClient, idsBody, envBody, decodeBodyWith, decodeItemsResponse, jlookup,
      decodeIdItems_of_ids, List.map_map]
    rw [show IdItem.id ∘ IdItem.mk = id from rfl, List.map_id]
  · have hu : urlParseError (moveBlocksRequest (constClient 207 (idsBody ids)) ⟨["q"], ⟨"end", "0", ""⟩⟩).url = none := rfl
    simp only [MoveBlocks, hu]
    simp [constClient, idsBody, envBody, decodeBodyWith, decodeItemsResponse, jlookup,
      decodeIdItems_of_ids, List.map_map]
    rw [show IdItem.id ∘ IdItem.mk = id from rfl, List.map_id]

/-- Counterexample to claim C3 as stated: the four failure modes are not
distinct error kinds or types.  A transport failure and a decode failure of
the same operation produce error values of the same Go dynamic shape (both
are `fmt.Errorf` wrap errors), so the kind of failure is not recoverable
from the error's type — only the message prefix distinguishes them. -/
theorem C3_counterexample :
    (FetchBlocks (transportFailClient (.errorString "dial tcp: connection refused")) "x" 0 false).1 =
      .error (executingRequestError (.errorString "dial tcp: connection refused")) ∧
    (FetchBlocks (constClient 200 (.raw "oops")) "x" 0 false).1 =
      .error (decodingResponseError "invalid character looking for beginning of value") ∧
    classifyError (executingRequestError (.errorString "dial tcp: connection refused")) =
      some .transport ∧
    classifyError (decodingResponseError "invalid character looking for beginning of value") =
      some .decode ∧
    (executingRequestError (.errorString "dial tcp: connection refused")).isWrapped =
      (decodingResponseError "invalid character looking for beginning of value").isWrapped :=
  ⟨rfl, rfl, rfl, rfl, rfl⟩

/-- Claim C3 amended: every operation surfaces its applicable failure modes
(request construction, transport, non-success status, response decode — no
decode stage exists for FetchBlocksMarkdown) as `fmt.Errorf`-built error
values whose fixed message prefix determines the mode, exhibited here on a
run of each operation in each mode, including both decode stages (envelope
and items) for the envelope operations. -/
theorem C3_amended_modes :
    (resultMode (FetchBlocks ctlClient "x" 0 false).1 = some .construction ∧
     resultMode (FetchBlocks (transportFailClient (.errorString "dial tcp: refused")) "x" 0 false).1 = some .transport ∧
     resultMode (FetchBlocks (constClient 502 (.raw "bad gateway")) "x" 0 false).1 = some .status ∧
     resultMode (FetchBlocks (constClient 200 (.raw "oops")) "x" 0 false).1 = some .decode) ∧
    (resultMode (FetchBlocksMarkdown ctlClient "x" 0).1 = some .construction ∧
     resultMode (FetchBlocksMarkdown (transportFailClient (.errorString "dial tcp: refused")) "x" 0).1 = some .transport ∧
     resultMode (FetchBlocksMarkdown (constClient 502 (.raw "bad gateway")) "x" 0).1 = some .status) ∧
    (resultMode (InsertBlocks ctlClient ⟨[], "m", ⟨"end", "0", ""⟩⟩).1 = some .construction ∧
     resultMode (InsertBlocks (transportFailClient (.errorString "dial tcp: refused")) ⟨[], "m", ⟨"end", "0", ""⟩⟩).1 = some .transport ∧
     resultMode (InsertBlocks (constClient 502 (.raw "bad gateway")) ⟨[], "m", ⟨"end", "0", ""⟩⟩).1 = some .status ∧
     resultMode (InsertBlocks (constClient 200 (.raw "oops")) ⟨[], "m", ⟨"end", "0", ""⟩⟩).1 = some .decode ∧
     resultMode (InsertBlocks (constClient 200 (envBody (.num 5))) ⟨[], "m", ⟨"end", "0", ""⟩⟩).1 = some .decode) ∧
    (resultMode (UpdateBlocks ctlClient ⟨[]⟩).1 = some .construction ∧
     resultMode (UpdateBlocks (transportFailClient (.errorString "dial tcp: refused")) ⟨[]⟩).1 = some .transport ∧
     resultMode (UpdateBlocks (constClient 502 (.raw "bad gateway")) ⟨[]⟩).1 = some .status ∧
     resultMode (UpdateBlocks (constClient 200 (.raw "oops")) ⟨[]⟩).1 = some .decode) ∧
    (resultMode (DeleteBlocks ctlClient ["a"]).1 = some .construction ∧
     resultMode (DeleteBlocks (transportFailClient (.errorString "dial tcp: refused")) ["a"]).1 = some .transport ∧
     resultMode (DeleteBlocks (constClient 502 (.raw "bad gateway")) ["a"]).1 = some .status ∧
     resultMode (DeleteBlocks (constClient 200 (.raw "oops")) ["a"]).1 = some .decode ∧
     resultMode (DeleteBlocks (constClient 200 (envBody (.num 5))) ["a"]).1 = some .decode) ∧
    (resultMode (MoveBlocks ctlClient ⟨["a"], ⟨"end", "0", ""⟩⟩).1 = some .construction ∧
     resultMode (MoveBlocks (transportFailClient (.errorString "dial tcp: refused")) ⟨["a"], ⟨"end", "0", ""⟩⟩).1 = some .transport ∧
     resultMode (MoveBlocks (constClient 502 (.raw "bad gateway")) ⟨["a"], ⟨"end", "0", ""⟩⟩).1 = some .status ∧
     resultMode (MoveBlocks (constClient 200 (.raw "oops")) ⟨["a"], ⟨"end", "0", ""⟩⟩).1 = some .decode ∧
     resultMode (MoveBlocks (constClient 200 (envBody (.num 5))) ⟨["a"], ⟨"end", "0", ""⟩⟩).1 = some .decode) ∧
    (resultMode (Search ctlClient "p" false 0 0).1 = some .construction ∧
     resultMode (Search (transportFailClient (.errorString "dial tcp: refused")) "p" false 0 0).1 = some .transport ∧
     resultMode (Search (constClient 502 (.raw "bad gateway")) "p" false 0 0).1 = some .status ∧
     resultMode (Search (constClient 200 (.raw "oops")) "p" false 0 0).1 = some .decode) ∧
    (resultMode (GenerateUploadURL ctlClient "f.txt" "").1 = some .construction ∧
     resultMode (GenerateUploadURL (transportFailClient (.errorString "dial tcp: refused")) "f.txt" "").1 = some .transport ∧
     resultMode (GenerateUploadURL (constClient 502 (.raw "bad gateway")) "f.txt" "").1 = some .status ∧
     resultMode (GenerateUploadURL (constClient 200 (.raw "oops")) "f.txt" "").1 = some .decode) := by
  decide

/-- Claim C4: FetchBlocks builds a GET /blocks request whose query carries
`id` exactly when the id is non-empty, `maxDepth` exactly when it is not the
sentinel -1, and `fetchMetadata` exactly when the flag is true; on status
200 the whole response body is decoded directly into a single Block. -/
theorem C4_fetchBlocks_contract (id : String) (maxDepth : Int) (fm : Bool) (b : Body) :
    (hasParam (fetchBlocksParams id maxDepth fm) "id" = true ↔ id ≠ "") ∧
    (hasParam (fetchBlocksParams id maxDepth fm) "maxDepth" = true ↔ maxDepth ≠ -1) ∧
    (hasParam (fetchBlocksParams id maxDepth fm) "fetchMetadata" = true ↔ fm = true) ∧
    (fetchBlocksRequest (constClient 200 b) id maxDepth fm).method = "GET" ∧
    ((FetchBlocks (constClient 200 b) "x" 0 false).1 =
      match decodeBodyWith decodeBlock b with
      | .error m => .error (decodingResponseError m)
      | .ok block => .ok block) := by
  refine ⟨?_, ?_, ?_, rfl, ?_⟩
  · by_cases h : id = "" <;>
      simp [hasParam, fetchBlocksParams, h]
  · by_cases h : maxDepth = -1 <;>
      simp [hasParam, fetchBlocksParams, h]
  · cases fm <;> simp [hasParam, fetchBlocksParams]
  · have hu : urlParseError (fetchBlocksRequest (constClient 200 b) "x" 0 false).url = none := rfl
    simp only [FetchBlocks, hu]
    rcases h : decodeBodyWith decodeBlock b with m | blk <;> simp [constClient, h]

/-- Claim C5: Search builds a GET /blocks/search request whose query always
carries `pattern` (also for the empty pattern), carries `caseSensitive`
exactly when the flag is true, and carries each context count exactly when
it is positive; on status 200 the items array decodes into search matches. -/
theorem C5_search_contract (pattern : String) (cs : Bool) (bc ac : Int) (v : Json) :
    hasParam (searchParams pattern cs bc ac) "pattern" = true ∧
    (hasParam (searchParams pattern cs bc ac) "caseSensitive" = true ↔ cs = true) ∧
    (hasParam (searchParams pattern cs bc ac) "beforeBlockCount" = true ↔ bc > 0) ∧
    (hasParam (searchParams pattern cs bc ac) "afterBlockCount" = true ↔ ac > 0) ∧
    (searchRequest (constClient 200 (envBody v)) pattern cs bc ac).method = "GET" ∧
    ((Search (constClient 200 (envBody v)) "p" false 0 0).1 =
      match decodeItemsSearchMatches (some v) with
      | .error m => .error (unmarshalingError "search results" m)
      | .ok results => .ok results) := by
  refine ⟨?_, ?_, ?_, ?_, rfl, ?_⟩
  · simp [hasParam, searchParams]
  · cases cs <;> by_cases hb : bc > 0 <;> by_cases ha : ac > 0 <;>
      simp [hasParam, searchParams, hb, ha]
  · cases cs <;> by_cases hb : bc > 0 <;> by_cases ha : ac > 0 <;>
      simp [hasParam, searchParams, hb, ha]
  · cases cs <;> by_cases hb : bc > 0 <;> by_cases ha : ac > 0 <;>
      simp [hasParam, searchParams, hb, ha]
  · have hu : urlParseError (searchRequest (constClient 200 (envBody v)) "p" false 0 0).url = none := rfl
    simp only [Search, hu]
    rcases h : decodeItemsSearchMatches (some v) with m | rs <;>
      simp [constClient, envBody, decodeBodyWith, decodeItemsResponse, jlookup, h]

/-- Claim C7: FetchBlocksMarkdown builds a GET /blocks request with Accept
header text/markdown, uses the same id/maxDepth omission rules as
FetchBlocks and never adds a fetchMetadata parameter, and on status 200
returns the raw response body verbatim with no decoding. -/
theorem C7_fetchBlocksMarkdown_contract (id : String) (maxDepth : Int) (s : String) (b : Body) :
    (hasParam (fetchBlocksMarkdownParams id maxDepth) "id" = true ↔ id ≠ "") ∧
    (hasParam (fetchBlocksMarkdownParams id maxDepth) "maxDepth" = true ↔ maxDepth ≠ -1) ∧
    hasParam (fetchBlocksMarkdownParams id maxDepth) "fetchMetadata" = false ∧
    (fetchBlocksMarkdownRequest (constClient 200 b) id maxDepth).headers =
      [("Accept", "text/markdown")] ∧
    (fetchBlocksMarkdownRequest (constClient 200 b) id maxDepth).method = "GET" ∧
    (FetchBlocksMarkdown (constClient 200 b) "x" 0).1 = .ok b.asString ∧
    (FetchBlocksMarkdown (constClient 200 (.raw s)) "x" 0).1 = .ok s := by
  refine ⟨?_, ?_, ?_, rfl, rfl, ?_, ?_⟩
  · by_cases h : id = "" <;>
      simp [hasParam, fetchBlocksMarkdownParams, h]
  · by_cases h : maxDepth = -1 <;>
      simp [hasParam, fetchBlocksMarkdownParams, h]
  · by_cases h : id = "" <;> by_cases h2 : maxDepth = -1 <;>
      simp [hasParam, fetchBlocksMarkdownParams, h, h2]
  · have hu : urlParseError (fetchBlocksMarkdownRequest (constClient 200 b) "x" 0).url = none := rfl
    simp only [FetchBlocksMarkdown, hu]
    simp [constClient]
  · have hu : urlParseError (fetchBlocksMarkdownRequest (constClient 200 (.raw s)) "x" 0).url = none := rfl
    simp only [FetchBlocksMarkdown, hu]
    simp [constClient, Body.asString]

/-- Claim C8: a Block JSON body whose width field is the string "auto"
decodes successfully, one whose width field is the number 600 decodes
successfully, and the two decoded width values are distinguishable — the
heterogeneous field loses no information. -/
theorem C8_width_heterogeneous :
    (decodeBlock (.obj [("type", Json.str "image"), ("width", Json.str "auto")])).map Block.width =
      .ok (some (.str "auto")) ∧
    (decodeBlock (.obj [("type", Json.str "image"), ("width", Json.num 600)])).map Block.width =
      .ok (some (.num 600)) ∧
    (decodeBlock (.obj [("type", Json.str "image"), ("width", Json.str "auto")])).map Block.width ≠
      (decodeBlock (.obj [("type", Json.str "image"), ("width", Json.num 600)])).map Block.width := by
  have h1 : (decodeBlock (.obj [("type", Json.str "image"), ("width", Json.str "auto")])).map Block.width =
      .ok (some (.str "auto")) := by
    simp [decodeBlock, Json.size, Json.sizeFields, decodeBlockF, getStrField, getIntField,
      getAnyField, jlookup, Except.map, Block.width, Except.instMonad, Except.bind, Except.pure]
  have h2 : (decodeBlock (.obj [("type", Json.str "image"), ("width", Json.num 600)])).map Block.width =
      .ok (some (.num 600)) := by
    simp [decodeBlock, Json.size, Json.sizeFields, decodeBlockF, getStrField, getIntField,
      getAnyField, jlookup, Except.map, Block.width, Except.instMonad, Except.bind, Except.pure]
  refine ⟨h1, h2, ?_⟩
  rw [h1, h2]
  simp

/-- Claim C9: for every operation, every input, and every transport
behaviour (hence every outcome), the client returned alongside the result
is the receiver itself — its BaseURL and HTTPClient fields are unchanged,
mirroring that the Go methods never assign through the receiver. -/
theorem C9_client_stateless (c : Client) (id : String) (d : Int) (fm : Bool) (ireq : InsertRequest)
    (ureq : UpdateRequest) (ids : List String) (mreq : MoveRequest) (p : String) (cs : Bool)
    (bc ac : Int) (fn mt : String) :
    (FetchBlocks c id d fm).2 = c ∧
    (FetchBlocksMarkdown c id d).2 = c ∧
    (InsertBlocks c ireq).2 = c ∧
    (UpdateBlocks c ureq).2 = c ∧
    (DeleteBlocks c ids).2 = c ∧
    (MoveBlocks c mreq).2 = c ∧
    (Search c p cs bc ac).2 = c ∧
    (GenerateUploadURL c fn mt).2 = c := by
  refine ⟨?_, ?_, ?_, ?_, ?_, ?_, ?_, ?_⟩ <;>
    simp only [FetchBlocks, FetchBlocksMarkdown, InsertBlocks, UpdateBlocks, DeleteBlocks,
      MoveBlocks, Search, GenerateUploadURL] <;>
    repeat' split <;> try rfl

/-- Claim C10: the demo handler reads the first element of a successful
insert's block list without checking non-emptiness: a 200 insert response
with an empty items array crashes the handler (Go index out of range),
while a non-empty one completes the success path — the success path is
well-defined only under the precondition that a successful insert returns
at least one block. -/
theorem C10_unchecked_first_block :
    handleCraftHackathon demoEmptyInsertTransport "POST" (.json (.obj [("query", Json.str "hi")])) =
      .crashed "runtime error: index out of range [0] with length 0" ∧
    handleCraftHackathon demoOkTransport "POST" (.json (.obj [("query", Json.str "hi")])) =
      .response 200 "application/json"
        (Json.render (.obj [("status", Json.str "created"), ("query", Json.str "hi")]) ++ "\n") := by
  have hf1 : (FetchBlocks (NewClient BaseURL demoEmptyInsertTransport) "" 0 false).1 =
      .ok (Block.mk "0" "page" "" "" [] 0 "" "" "" "" "" none 0 "" "" 0) := by
    have hu : urlParseError (fetchBlocksRequest (NewClient BaseURL demoEmptyInsertTransport) "" 0 false).url = none := rfl
    simp only [FetchBlocks, hu]
    simp [NewClient, demoEmptyInsertTransport, fetchBlocksRequest, decodeBodyWith, demoRootBody,
      decodeBlock, Json.size, Json.sizeFields, decodeBlockF, getStrField, getIntField,
      getAnyField, jlookup, Except.instMonad, Except.bind, Except.pure]
  have hf2 : (FetchBlocks (NewClient BaseURL demoOkTransport) "" 0 false).1 =
      .ok (Block.mk "0" "page" "" "" [] 0 "" "" "" "" "" none 0 "" "" 0) := by
    have hu : urlParseError (fetchBlocksRequest (NewClient BaseURL demoOkTransport) "" 0 false).url = none := rfl
    simp only [FetchBlocks, hu]
    simp [NewClient, demoOkTransport, fetchBlocksRequest, decodeBodyWith, demoRootBody,
      decodeBlock, Json.size, Json.sizeFields, decodeBlockF, getStrField, getIntField,
      getAnyField, jlookup, Except.instMonad, Except.bind, Except.pure]
  have hi1 : (InsertBlocks (NewClient BaseURL demoEmptyInsertTransport)
      (demoInsertRequest "hi" (Block.mk "0" "page" "" "" [] 0 "" "" "" "" "" none 0 "" "" 0))).1 =
      .ok [] := by
    have hu : urlParseError (insertBlocksRequest (NewClient BaseURL demoEmptyInsertTransport)
        (demoInsertRequest "hi" (Block.mk "0" "page" "" "" [] 0 "" "" "" "" "" none 0 "" "" 0))).url = none := rfl
    simp only [InsertBlocks, hu]
    simp [NewClient, demoEmptyInsertTransport, insertBlocksRequest, decodeBodyWith, envBody,
      decodeItemsResponse, decodeItemsBlocks, decodeBlockList, jlookup, Except.instMonad,
      Except.bind, Except.pure, List.mapM.loop]
  have hi2 : (InsertBlocks (NewClient BaseURL demoOkTransport)
      (demoInsertRequest "hi" (Block.mk "0" "page" "" "" [] 0 "" "" "" "" "" none 0 "" "" 0))).1 =
      .ok [Block.mk "9" "text" "" "hi" [] 0 "" "" "" "" "" none 0 "" "" 0] := by
    have hu : urlParseError (insertBlocksRequest (NewClient BaseURL demoOkTransport)
        (demoInsertRequest "hi" (Block.mk "0" "page" "" "" [] 0 "" "" "" "" "" none 0 "" "" 0))).url = none := rfl
    simp only [InsertBlocks, hu]
    simp [NewClient, demoOkTransport, insertBlocksRequest, decodeBodyWith, envBody,
      decodeItemsResponse, decodeItemsBlocks, decodeBlockList, decodeBlock, Json.size,
      Json.sizeFields, decodeBlockF, getStrField, getIntField, getAnyField, jlookup,
      Except.instMonad, Except.bind, Except.pure, List.mapM.loop]
  constructor
  · simp only [handleCraftHackathon,
      show decodeBodyWith decodeQueryRequest (.json (.obj [("query", Json.str "hi")])) =
        .ok ⟨"hi"⟩ from rfl]
    simp [hf1, hi1]
  · simp only [handleCraftHackathon,
      show decodeBodyWith decodeQueryRequest (.json (.obj [("query", Json.str "hi")])) =
        .ok ⟨"hi"⟩ from rfl]
    simp [hf2, hi2]

/-- Claim C6: for a POST to the demo endpoint with JSON body carrying a
query string, the handler fetches the remote root block and inserts the
query text as markdown at position end of the fetched root's identifier;
on success it responds 200 with JSON status created echoing the query, and
if either remote call fails it responds with a plain-text error (the
http.Error shape) and status 500. -/
theorem C6_demo_handler (t : HTTPRequest → HTTPResult) (q : String) (root b : Block)
    (rest : List Block) (e : GoError) :
    ((FetchBlocks (NewClient BaseURL t) "" 0 false).1 = .ok root →
       ((InsertBlocks (NewClient BaseURL t) (demoInsertRequest q root)).1 = .ok (b :: rest) →
          handleCraftHackathon t "POST" (.json (.obj [("query", Json.str q)])) =
            .response 200 "application/json"
              (Json.render (.obj [("status", Json.str "created"), ("query", Json.str q)]) ++ "\n")) ∧
       ((InsertBlocks (NewClient BaseURL t) (demoInsertRequest q root)).1 = .error e →
          handleCraftHackathon t "POST" (.json (.obj [("query", Json.str q)])) =
            httpError ("Failed to add content: " ++ e.message) 500)) ∧
    ((FetchBlocks (NewClient BaseURL t) "" 0 false).1 = .error e →
       handleCraftHackathon t "POST" (.json (.obj [("query", Json.str q)])) =
         httpError ("Failed to fetch document: " ++ e.message) 500) := by
  have hq : decodeBodyWith decodeQueryRequest (.json (.obj [("query", Json.str q)])) =
      .ok ⟨q⟩ := rfl
  refine ⟨fun hf => ⟨fun hi => ?_, fun hi => ?_⟩, fun hf => ?_⟩
  · simp only [handleCraftHackathon, hq]
    simp [hf, hi]
  · simp only [handleCraftHackathon, hq]
    simp [hf, hi]
  · simp only [handleCraftHackathon, hq]
    simp [hf]

/-- Witness for C6 at a concrete transport: the root fetch and the insert
both succeed, and the handler answers 200 with the created/echo JSON. -/
theorem C6_demo_handler_witness :
    handleCraftHackathon demoOkTransport "POST" (.json (.obj [("query", Json.str "hello")])) =
      .response 200 "application/json"
        (Json.render (.obj [("status", Json.str "created"), ("query", Json.str "hello")]) ++ "\n") := by
  have hf : (FetchBlocks (NewClient BaseURL demoOkTransport) "" 0 false).1 =
      .ok (Block.mk "0" "page" "" "" [] 0 "" "" "" "" "" none 0 "" "" 0) := by
    have hu : urlParseError (fetchBlocksRequest (NewClient BaseURL demoOkTransport) "" 0 false).url = none := rfl
    simp only [FetchBlocks, hu]
    simp [NewClient, demoOkTransport, fetchBlocksRequest, decodeBodyWith, demoRootBody,
      decodeBlock, Json.size, Json.sizeFields, decodeBlockF, getStrField, getIntField,
      getAnyField, jlookup, Except.instMonad, Except.bind, Except.pure]
  have hi : (InsertBlocks (NewClient BaseURL demoOkTransport)
      (demoInsertRequest "hello" (Block.mk "0" "page" "" "" [] 0 "" "" "" "" "" none 0 "" "" 0))).1 =
      .ok [Block.mk "9" "text" "" "hi" [] 0 "" "" "" "" "" none 0 "" "" 0] := by
    have hu : urlParseError (insertBlocksRequest (NewClient BaseURL demoOkTransport)
        (demoInsertRequest "hello" (Block.mk "0" "page" "" "" [] 0 "" "" "" "" "" none 0 "" "" 0))).url = none := rfl
    simp only [InsertBlocks, hu]
    simp [NewClient, demoOkTransport, insertBlocksRequest, decodeBodyWith, envBody,
      decodeItemsResponse, decodeItemsBlocks, decodeBlockList, decodeBlock, Json.size,
      Json.sizeFields, decodeBlockF, getStrField, getIntField, getAnyField, jlookup,
      Except.instMonad, Except.bind, Except.pure, List.mapM.loop]
  exact ((C6_demo_handler demoOkTransport "hello"
      (Block.mk "0" "page" "" "" [] 0 "" "" "" "" "" none 0 "" "" 0)
      (Block.mk "9" "text" "" "hi" [] 0 "" "" "" "" "" none 0 "" "" 0) []
      (.errorString "")).1 hf).1 hi
